import Mathlib

/-!
Verification of the Tic-Tac-Toe game core of the repository
(GameBoard component, AI move route, AI service client, game stats route).

The TypeScript sources are embedded shallowly:
cells are `Option Mark` (JS `'X' | 'O' | null`), boards are `List Cell`
indexed as in JS (out-of-range reads yield the default `none`, matching
JS `undefined` which compares unequal to both marks), and the React
component state is an explicit `GameState` record threaded through the
transition functions.
-/

/-- The two player symbols, JS string literals for X and O. -/
inductive Mark where
  | X
  | O
deriving DecidableEq

/-- A board cell: X, O or null in the source. -/
abbrev Cell := Option Mark

/-- The GameStatus union type of the GameBoard component:
playing, won, lost or draw. -/
inductive GameStatus where
  | playing
  | won
  | lost
  | draw
deriving DecidableEq

/-- The React state of the GameBoard component that the game logic touches:
board, currentPlayer, gameStatus, isAiThinking, winningCombination.
(The gameStartTime state is wall-clock only and not modelled.) -/
structure GameState where
  board : List Cell
  currentPlayer : Mark
  gameStatus : GameStatus
  isAiThinking : Bool
  winningCombination : List Nat
deriving DecidableEq

/-- Indices of row `row` of checkWinner: `startIndex + i` for i below size,
with `startIndex = row * size`. -/
def rowLine (size row : Nat) : List Nat :=
  (List.range size).map (fun i => row * size + i)

/-- Indices of column `col` of checkWinner: `i * size + col`. -/
def colLine (size col : Nat) : List Nat :=
  (List.range size).map (fun i => i * size + col)

/-- Indices of the main diagonal: `i * size + i`. -/
def diagLine (size : Nat) : List Nat :=
  (List.range size).map (fun i => i * size + i)

/-- Indices of the anti-diagonal: `i * size + (size - 1 - i)`. -/
def antiDiagLine (size : Nat) : List Nat :=
  (List.range size).map (fun i => i * size + (size - 1 - i))

/-- The inner loop of checkWinner: `match` stays true iff every cell of the
candidate line equals `player` (the strict-inequality test breaks the loop). -/
def lineAll (currentBoard : List Cell) (player : Mark) (line : List Nat) : Bool :=
  line.all (fun idx => currentBoard.getD idx none == some player)

/-- checkWinner from the GameBoard component (part_004 lines 65-111):
scans rows 0..size-1, then columns 0..size-1, then the main diagonal,
then the anti-diagonal, returning the index list of the first line whose
cells all equal `player`, else `none`.  In the source `size` is captured
from the component scope; here it is an explicit argument. -/
def checkWinner (currentBoard : List Cell) (size : Nat) (player : Mark) :
    Option (List Nat) :=
  match (List.range size).find? (fun row => lineAll currentBoard player (rowLine size row)) with
  | some row => some (rowLine size row)
  | none =>
    match (List.range size).find? (fun col => lineAll currentBoard player (colLine size col)) with
    | some col => some (colLine size col)
    | none =>
      if lineAll currentBoard player (diagLine size) then some (diagLine size)
      else if lineAll currentBoard player (antiDiagLine size) then some (antiDiagLine size)
      else none

/-- All candidate lines in the priority order of checkWinner:
rows, then columns, then main diagonal, then anti-diagonal. -/
def candidateLines (size : Nat) : List (List Nat) :=
  (List.range size).map (rowLine size) ++ (List.range size).map (colLine size)
    ++ [diagLine size, antiDiagLine size]

/-- A diagonal-win demonstration board: X at cells 0, 4, 8 of a 3x3 grid. -/
def demoBoardDiag : List Cell :=
  [some Mark.X, some Mark.O, none,
   some Mark.O, some Mark.X, none,
   none, none, some Mark.X]

/-- The early-return guard of handleMove (part_004 line 119): return when
the indexed cell is truthy, the status is not playing, or the AI is
thinking.  JS truthiness of the cell read is `Option.isSome` (both mark
strings are non-empty, and an out-of-range read yields falsy undefined). -/
def localGuard (s : GameState) (index : Nat) : Bool :=
  (s.board.getD index none).isSome || s.gameStatus != GameStatus.playing || s.isAiThinking

/-- First half of handleMove (part_004 lines 118-153), up to the await of
the oracle request: place the local X, check the local win, then the draw,
and otherwise mark the oracle request pending.  The second component is the
board captured by the continuation when a request is issued (`none` means no
oracle request was sent). -/
def handleMovePhase1 (size : Nat) (s : GameState) (index : Nat) :
    GameState × Option (List Cell) :=
  if localGuard s index then (s, none)
  else
    let newBoard := s.board.set index (some Mark.X)
    match checkWinner newBoard size Mark.X with
    | some combo =>
      ({ s with board := newBoard, winningCombination := combo,
                gameStatus := GameStatus.won }, none)
    | none =>
      if newBoard.all (fun cell => cell.isSome) then
        ({ s with board := newBoard, gameStatus := GameStatus.draw }, none)
      else
        ({ s with board := newBoard, currentPlayer := Mark.O, isAiThinking := true },
         some newBoard)

/-- Second half of handleMove (part_004 lines 155-178), run when the oracle
call settles: it closes over `captured` (the newBoard of the requesting
call, NOT the board of the state it runs against) and acts on the
then-current component state `s` through the React setters.  An oracle
failure is the catch branch (nothing applied, the finally clause clears the
pending flag); a success carries the index already validated in range by
the move route. -/
def handleMoveResume (size : Nat) (captured : List Cell) (oracle : Except Unit Nat)
    (s : GameState) : GameState :=
  match oracle with
  | Except.error _ => { s with isAiThinking := false }
  | Except.ok aiMoveIndex =>
    let finalBoard := captured.set aiMoveIndex (some Mark.O)
    match checkWinner finalBoard size Mark.O with
    | some combo =>
      { s with board := finalBoard, winningCombination := combo,
               gameStatus := GameStatus.lost, isAiThinking := false }
    | none =>
      if finalBoard.all (fun cell => cell.isSome) then
        { s with board := finalBoard, gameStatus := GameStatus.draw,
                 isAiThinking := false }
      else
        { s with board := finalBoard, currentPlayer := Mark.X, isAiThinking := false }

/-- One whole handleMove call in the undisturbed case: the continuation runs
against the state phase 1 produced, with `oracle` the outcome of the
getAIMove round trip (ok an index, error any thrown failure). -/
def handleMove (size : Nat) (s : GameState) (index : Nat) (oracle : Except Unit Nat) :
    GameState :=
  match handleMovePhase1 size s index with
  | (s1, none) => s1
  | (s1, some captured) => handleMoveResume size captured oracle s1

/-- resetGame (part_004 lines 210-217): fresh empty board, status playing,
player X, pending flag cleared, no winning combination.  It reads nothing
from the previous state. -/
def resetGame (size : Nat) (_s : GameState) : GameState :=
  { board := List.replicate (size * size) none
    currentPlayer := Mark.X
    gameStatus := GameStatus.playing
    isAiThinking := false
    winningCombination := [] }

/-- The initial component state (part_004 lines 47-52). -/
def initialState (size : Nat) : GameState :=
  { board := List.replicate (size * size) none
    currentPlayer := Mark.X
    gameStatus := GameStatus.playing
    isAiThinking := false
    winningCombination := [] }

/-- createBoard, the board construction of the GameBoard component (part_004
lines 43-47): the size is parsed straight from the URL and the board is
filled with size * size null cells — there is no membership check on the
size. -/
def createBoard (size : Nat) : List Cell :=
  List.replicate (size * size) none

/-- Size normalization of parseGameParams (part_006 lines 81-93): a parsed
size outside the set 3, 4, 5 silently falls back to 3; it never fails. -/
def parseGameParamsSize (size : Nat) : Nat :=
  if size = 3 ∨ size = 4 ∨ size = 5 then size else 3

/-- Hexadecimal digit test used by the parseInt model for the 0x prefix. -/
def isHexDigitChar (c : Char) : Bool :=
  c.isDigit || ('a' ≤ c && c ≤ 'f') || ('A' ≤ c && c ≤ 'F')

/-- Numeric value of a hexadecimal digit character. -/
def hexVal (c : Char) : Nat :=
  if c.isDigit then c.toNat - 48
  else if 'a' ≤ c && c ≤ 'f' then c.toNat - 87
  else c.toNat - 55

/-- Helper for parseIntJS: longest prefix of hex digits, or NaN when empty. -/
def parseHexDigits (sign : Int) (r : List Char) : Option Int :=
  let digits := r.takeWhile isHexDigitChar
  if digits.isEmpty then none
  else some (sign * ((digits.foldl (fun acc c => 16 * acc + hexVal c) 0 : Nat) : Int))

/-- JS parseInt with no radix argument, as applied to the model reply in the
move route (route.ts line 145): skip leading whitespace, optional sign,
auto-detect a 0x or 0X hexadecimal prefix, then take the longest prefix of
digits and ignore any trailing characters; NaN (here `none`) when no digit
is found.  (Float precision loss on astronomically long replies is not
modelled.) -/
def parseIntJS (s : String) : Option Int :=
  let chars := s.data.dropWhile (fun c => c.isWhitespace)
  let signed : Int × List Char :=
    match chars with
    | '-' :: r => (-1, r)
    | '+' :: r => (1, r)
    | r => (1, r)
  match signed.2 with
  | '0' :: 'x' :: r => parseHexDigits signed.1 r
  | '0' :: 'X' :: r => parseHexDigits signed.1 r
  | r =>
    let digits := r.takeWhile (fun c => c.isDigit)
    if digits.isEmpty then none
    else some (signed.1 * ((digits.foldl (fun acc c => 10 * acc + (c.toNat - 48)) 0 : Nat) : Int))

/-- Validation of the oracle reply in the move route (route.ts lines
144-153): parseInt of the trimmed reply, then reject when the result is NaN,
negative, at least the board length, or names a non-empty cell; otherwise
answer the move.  The 400 response carries the message shown. -/
def validateAIMove (moveText : String) (board : List Cell) : Except String Nat :=
  match parseIntJS moveText with
  | none => Except.error "AI returned invalid move"
  | some move =>
    if move < 0 ∨ (board.length : Int) ≤ move ∨ board.getD move.toNat none ≠ none then
      Except.error "AI returned invalid move"
    else Except.ok move.toNat

/-- Discriminator for a failed validation result. -/
def isErr : Except String Nat → Bool
  | Except.error _ => true
  | Except.ok _ => false

/-- HTTP status of the move route response (route.ts lines 148-155):
400 on a rejected move, 200 on success. -/
def aiMoveHttpStatus : Except String Nat → Nat
  | Except.error _ => 400
  | Except.ok _ => 200

/-- getAIMove, the oracle client (part_006 lines 33-48): it returns the move
of an OK response and rethrows any failure — no retry, no fallback move. -/
def getAIMove : Except String Nat → Except String Nat
  | Except.error e => Except.error e
  | Except.ok m => Except.ok m

/-- Aggregate statistics stored on the user document: stats.gamesPlayed,
stats.gamesWon, stats.timePlayed (minutes, a JS float, modelled as Rat). -/
structure UserStats where
  gamesPlayed : Nat
  gamesWon : Nat
  timePlayed : Rat
deriving DecidableEq

/-- Body of a POST to the game stats route: each field may be absent. -/
structure StatsRequest where
  userId : Option String
  result : Option String
  duration : Option Rat
  boardSize : Option Nat
  difficulty : Option String
deriving DecidableEq

/-- JS falsiness of a string field: absent or the empty string. -/
def falsyField : Option String → Bool
  | none => true
  | some s => s.isEmpty

/-- JS falsiness of the numeric duration field: absent or exactly 0. -/
def falsyDuration : Option Rat → Bool
  | none => true
  | some q => q == 0

/-- JS falsiness of the numeric boardSize field: absent or exactly 0. -/
def falsyBoardSize : Option Nat → Bool
  | none => true
  | some n => n == 0

/-- Observable outcome of one stats POST: HTTP status, response message,
number of GameStats records created, and the user's aggregates afterwards. -/
structure StatsPostResponse where
  status : Nat
  message : String
  gameRecordsCreated : Nat
  stats : UserStats
deriving DecidableEq

/-- Castability of a string to a mongoose ObjectId, required by the userId
field of the GameStats schema (GameStats.ts lines 23-27): a string casts
exactly when it is 24 hexadecimal characters; anything else throws a
CastError at save(). -/
def validObjectId (s : String) : Bool :=
  s.length == 24 && s.data.all isHexDigitChar

/-- The GameStats schema validators (GameStats.ts lines 22-51), enforced by
mongoose when the route calls gameStats.save(): userId must cast to an
ObjectId, result must be one of won, lost, draw; boardSize one of 3, 4, 5;
difficulty one of easy, medium, hard.  A violating payload throws a
deterministic ValidationError, so the route answers 500 from its catch
(part_003 lines 75-81) with no record created. -/
def gameStatsSchemaValid (req : StatsRequest) : Bool :=
  validObjectId (req.userId.getD "") &&
  (req.result == some "won" || req.result == some "lost" || req.result == some "draw") &&
  (req.boardSize == some 3 || req.boardSize == some 4 || req.boardSize == some 5) &&
  (req.difficulty == some "easy" || req.difficulty == some "medium" ||
    req.difficulty == some "hard")

/-- POST of the game stats route (part_003 lines 28-82): reject with 400
when any of the five required fields is falsy; then gameStats.save() throws
on any GameStats schema violation and the catch answers 500 (its message is
the thrown error's text, modelled by the route's fallback string) with no
record created and aggregates untouched; otherwise create one GameStats
record and increment stats.gamesPlayed by one, stats.timePlayed by the
duration, and stats.gamesWon by one exactly when the result is the string
won.  `current` is the stored aggregate of the (existing) user. -/
def statsPost (req : StatsRequest) (current : UserStats) : StatsPostResponse :=
  if falsyField req.userId || falsyField req.result || falsyDuration req.duration ||
      falsyBoardSize req.boardSize || falsyField req.difficulty then
    { status := 400, message := "Missing required fields", gameRecordsCreated := 0,
      stats := current }
  else if gameStatsSchemaValid req then
    { status := 200
      message := "Stats updated successfully"
      gameRecordsCreated := 1
      stats :=
        { gamesPlayed := current.gamesPlayed + 1
          timePlayed := current.timePlayed + req.duration.getD 0
          gamesWon := current.gamesWon + (if req.result = some "won" then 1 else 0) } }
  else
    { status := 500, message := "Failed to update stats", gameRecordsCreated := 0,
      stats := current }

/-- An accepted demonstration stats report (userId is a 24-hex ObjectId). -/
def demoStatsReq : StatsRequest :=
  { userId := some "64a1b2c3d4e5f60718293a4b", result := some "won", duration := some 2,
    boardSize := some 3, difficulty := some "easy" }

/-- A stats report whose duration is exactly 0 minutes. -/
def zeroDurationReq : StatsRequest :=
  { userId := some "u1", result := some "won", duration := some 0,
    boardSize := some 3, difficulty := some "easy" }

lemma checkWinner_eq_find (b : List Cell) (size : Nat) (p : Mark) :
    checkWinner b size p = (candidateLines size).find? (lineAll b p) := by
  rw [candidateLines, List.find?_append, List.find?_append, List.find?_map, List.find?_map]
  unfold checkWinner
  rcases hr : (List.range size).find? (fun row => lineAll b p (rowLine size row)) with _ | r
  · rcases hc : (List.range size).find? (fun col => lineAll b p (colLine size col)) with _ | c
    · simp only [Function.comp_def, hr, hc, Option.or_none, Option.none_or, Option.map_none]
      rcases hd : lineAll b p (diagLine size) with _ | _ <;>
        rcases ha : lineAll b p (antiDiagLine size) with _ | _ <;>
          simp [List.find?, hd, ha]
    · simp [Function.comp_def, hr, hc]
  · simp [Function.comp_def, hr]

lemma lineAll_map_range (b : List Cell) (p : Mark) (n : Nat) (f : Nat → Nat) :
    lineAll b p ((List.range n).map f) = true ↔
      ∀ i < n, b.getD (f i) none = some p := by
  simp [lineAll, List.all_map, List.all_eq_true, Function.comp_def]

lemma cell_index_bound {a c size : Nat} (ha : a < size) (hc : c < size) :
    a * size + c < size * size := by
  calc a * size + c < a * size + size := by omega
    _ = (a + 1) * size := by ring
    _ ≤ size * size := Nat.mul_le_mul (Nat.succ_le_of_lt ha) (Nat.le_refl size)

lemma mem_candidateLines_length {size : Nat} {l : List Nat}
    (h : l ∈ candidateLines size) : l.length = size := by
  simp only [candidateLines, List.mem_append, List.mem_map, List.mem_range,
    List.mem_cons, List.mem_singleton] at h
  rcases h with (⟨r, _, rfl⟩ | ⟨c, _, rfl⟩) | (rfl | (rfl | h))
  · simp [rowLine]
  · simp [colLine]
  · simp [diagLine]
  · simp [antiDiagLine]
  · cases h

lemma mem_candidateLines_bound {size : Nat} {l : List Nat}
    (h : l ∈ candidateLines size) : ∀ i ∈ l, i < size * size := by
  simp only [candidateLines, List.mem_append, List.mem_map, List.mem_range,
    List.mem_cons, List.mem_singleton] at h
  intro i hi
  rcases h with (⟨r, hr, rfl⟩ | ⟨c, hc, rfl⟩) | (rfl | (rfl | h))
  · simp only [rowLine, List.mem_map, List.mem_range] at hi
    obtain ⟨j, hj, rfl⟩ := hi
    exact cell_index_bound hr hj
  · simp only [colLine, List.mem_map, List.mem_range] at hi
    obtain ⟨j, hj, rfl⟩ := hi
    exact cell_index_bound hj hc
  · simp only [diagLine, List.mem_map, List.mem_range] at hi
    obtain ⟨j, hj, rfl⟩ := hi
    exact cell_index_bound hj hj
  · simp only [antiDiagLine, List.mem_map, List.mem_range] at hi
    obtain ⟨j, hj, rfl⟩ := hi
    exact cell_index_bound hj (by omega)
  · cases h

/-- Claim C1: for every board of size 3, 4 or 5 and every mark, checkWinner
examines candidate lines in the exact priority order rows, columns, main
diagonal, anti-diagonal, and returns the first line all of whose cells equal
the mark, or none when no such line exists. -/
theorem checkWinner_priority (b : List Cell) (p : Mark) (size : Nat)
    (hsize : size = 3 ∨ size = 4 ∨ size = 5) :
    checkWinner b size p = (candidateLines size).find? (lineAll b p) :=
  checkWinner_eq_find b size p

theorem checkWinner_priority_witness :
    checkWinner demoBoardDiag 3 Mark.X =
      (candidateLines 3).find? (lineAll demoBoardDiag Mark.X) :=
  checkWinner_priority demoBoardDiag Mark.X 3 (Or.inl rfl)

/-- Claim C2: when checkWinner returns a line, the line has exactly `size`
indices, each within the board bound size * size, and the board holds the
given mark at each of them; and a line is returned exactly when some row,
column or diagonal consists entirely of that mark. -/
theorem checkWinner_sound_complete (b : List Cell) (size : Nat) (p : Mark) :
    (∀ l, checkWinner b size p = some l →
        l.length = size ∧ ∀ i ∈ l, i < size * size ∧ b.getD i none = some p) ∧
    ((checkWinner b size p).isSome ↔
      (∃ r < size, ∀ c < size, b.getD (r * size + c) none = some p) ∨
      (∃ c < size, ∀ r < size, b.getD (r * size + c) none = some p) ∨
      (∀ i < size, b.getD (i * size + i) none = some p) ∨
      (∀ i < size, b.getD (i * size + (size - 1 - i)) none = some p)) := by
  constructor
  · intro l hl
    rw [checkWinner_eq_find] at hl
    have hmem : l ∈ candidateLines size := List.mem_of_find?_eq_some hl
    have hall : lineAll b p l = true := List.find?_some hl
    refine ⟨mem_candidateLines_length hmem, fun i hi => ⟨mem_candidateLines_bound hmem i hi, ?_⟩⟩
    rw [lineAll, List.all_eq_true] at hall
    have := hall i hi
    simpa using this
  · rw [checkWinner_eq_find, List.find?_isSome]
    constructor
    · rintro ⟨l, hmem, hall⟩
      simp only [candidateLines, List.mem_append, List.mem_map, List.mem_range,
        List.mem_cons, List.mem_singleton] at hmem
      rcases hmem with (⟨r, hr, rfl⟩ | ⟨c, hc, rfl⟩) | (rfl | (rfl | hmem))
      · exact Or.inl ⟨r, hr, (lineAll_map_range b p size _).mp hall⟩
      · exact Or.inr (Or.inl ⟨c, hc, (lineAll_map_range b p size _).mp hall⟩)
      · exact Or.inr (Or.inr (Or.inl ((lineAll_map_range b p size _).mp hall)))
      · exact Or.inr (Or.inr (Or.inr ((lineAll_map_range b p size _).mp hall)))
      · cases hmem
    · rintro (⟨r, hr, hall⟩ | ⟨c, hc, hall⟩ | hall | hall)
      · exact ⟨rowLine size r, by
          simp only [candidateLines, List.mem_append, List.mem_map, List.mem_range]
          exact Or.inl (Or.inl ⟨r, hr, rfl⟩),
          (lineAll_map_range b p size _).mpr hall⟩
      · exact ⟨colLine size c, by
          simp only [candidateLines, List.mem_append, List.mem_map, List.mem_range]
          exact Or.inl (Or.inr ⟨c, hc, rfl⟩),
          (lineAll_map_range b p size _).mpr hall⟩
      · exact ⟨diagLine size, by simp [candidateLines],
          (lineAll_map_range b p size _).mpr hall⟩
      · exact ⟨antiDiagLine size, by simp [candidateLines, antiDiagLine, diagLine],
          (lineAll_map_range b p size _).mpr hall⟩

theorem checkWinner_sound_complete_witness :
    [0, 4, 8].length = 3 ∧
      ∀ i ∈ [0, 4, 8], i < 3 * 3 ∧ demoBoardDiag.getD i none = some Mark.X :=
  (checkWinner_sound_complete demoBoardDiag 3 Mark.X).1 [0, 4, 8] (by decide)

/-- Claim C4: a local move request is a silent no-op whenever the status is
not playing, or the target cell is occupied, or an oracle move is pending:
the state is returned unchanged and no oracle request is issued. -/
theorem handleMove_rejected_noop (size : Nat) (s : GameState) (index : Nat)
    (oracle : Except Unit Nat)
    (h : s.gameStatus ≠ GameStatus.playing ∨ (s.board.getD index none).isSome = true ∨
         s.isAiThinking = true) :
    handleMove size s index oracle = s ∧ handleMovePhase1 size s index = (s, none) := by
  have hguard : localGuard s index = true := by
    rcases h with h | h | h
    · simp [localGuard, h]
    · unfold localGuard
      rw [h]
      simp
    · simp [localGuard, h]
  constructor
  · simp [handleMove, handleMovePhase1, hguard]
  · simp [handleMovePhase1, hguard]

theorem handleMove_rejected_noop_witness :
    handleMove 3 { initialState 3 with gameStatus := GameStatus.won } 0 (Except.ok 1) =
      { initialState 3 with gameStatus := GameStatus.won } :=
  (handleMove_rejected_noop 3 _ 0 (Except.ok 1) (Or.inl (by decide))).1

/-- Claim C6: on any oracle-client failure the attempted oracle move is not
applied: the board keeps exactly the cells it held after the local X was
placed, the status stays playing, and the pending flag is cleared so local
moves are accepted again. -/
theorem handleMove_oracle_failure (size : Nat) (s : GameState) (index : Nat)
    (hguard : localGuard s index = false)
    (hnowin : checkWinner (s.board.set index (some Mark.X)) size Mark.X = none)
    (hnotfull : (s.board.set index (some Mark.X)).all (fun cell => cell.isSome) = false) :
    handleMove size s index (Except.error ()) =
      { s with board := s.board.set index (some Mark.X), currentPlayer := Mark.O,
               isAiThinking := false } ∧
    (handleMove size s index (Except.error ())).gameStatus = GameStatus.playing ∧
    (handleMove size s index (Except.error ())).isAiThinking = false := by
  have hplay : s.gameStatus = GameStatus.playing := by
    by_contra hne
    simp [localGuard, hne] at hguard
  have hmain : handleMove size s index (Except.error ()) =
      { s with board := s.board.set index (some Mark.X), currentPlayer := Mark.O,
               isAiThinking := false } := by
    simp [handleMove, handleMovePhase1, handleMoveResume, hguard, hnowin, hnotfull]
  exact ⟨hmain, by rw [hmain]; exact hplay, by rw [hmain]⟩

theorem handleMove_oracle_failure_witness :
    handleMove 3 (initialState 3) 0 (Except.error ()) =
      { initialState 3 with board := (initialState 3).board.set 0 (some Mark.X),
                            currentPlayer := Mark.O, isAiThinking := false } :=
  (handleMove_oracle_failure 3 (initialState 3) 0 (by decide) (by decide) (by decide)).1

/-- Claim C3: the win check for the placing mark runs before the draw check.
A local placement that completes a line yields status won even when it fills
the board; an oracle placement that completes a line yields status lost even
when it fills the board; and a draw is reported only when the board is full
and the checkWinner call for the mark just placed returned no line. -/
theorem handleMove_win_before_draw (size : Nat) (s : GameState) (index : Nat)
    (oracle : Except Unit Nat) (hplay : s.gameStatus = GameStatus.playing) :
    (localGuard s index = false →
      ∀ combo, checkWinner (s.board.set index (some Mark.X)) size Mark.X = some combo →
        (handleMove size s index oracle).gameStatus = GameStatus.won) ∧
    (localGuard s index = false →
      checkWinner (s.board.set index (some Mark.X)) size Mark.X = none →
      (s.board.set index (some Mark.X)).all (fun cell => cell.isSome) = false →
      ∀ k, oracle = Except.ok k →
        ∀ combo,
          checkWinner ((s.board.set index (some Mark.X)).set k (some Mark.O)) size
              Mark.O = some combo →
          (handleMove size s index oracle).gameStatus = GameStatus.lost) ∧
    ((handleMove size s index oracle).gameStatus = GameStatus.draw →
      (handleMove size s index oracle).board.all (fun cell => cell.isSome) = true ∧
      (((handleMove size s index oracle).board = s.board.set index (some Mark.X) ∧
          checkWinner (s.board.set index (some Mark.X)) size Mark.X = none) ∨
        (∃ k, oracle = Except.ok k ∧
          (handleMove size s index oracle).board =
            (s.board.set index (some Mark.X)).set k (some Mark.O) ∧
          checkWinner ((s.board.set index (some Mark.X)).set k (some Mark.O)) size
            Mark.O = none))) := by
  refine ⟨?_, ?_, ?_⟩
  · intro hguard combo hwin
    simp [handleMove, handleMovePhase1, hguard, hwin]
  · intro hguard hnowin hnotfull k hk combo hwin
    subst hk
    simp [handleMove, handleMovePhase1, handleMoveResume, hguard, hnowin, hnotfull, hwin]
  · intro hdraw
    rcases hguard : localGuard s index with _ | _
    · rcases hwin : checkWinner (s.board.set index (some Mark.X)) size Mark.X with _ | combo
      · rcases hfull : (s.board.set index (some Mark.X)).all (fun cell => cell.isSome)
            with _ | _
        · rcases oracle with _ | k
          · exfalso
            simp [handleMove, handleMovePhase1, handleMoveResume, hguard, hwin, hfull,
              hplay] at hdraw
          · rcases hwin2 : checkWinner ((s.board.set index (some Mark.X)).set k
                (some Mark.O)) size Mark.O with _ | combo2
            · rcases hfull2 : ((s.board.set index (some Mark.X)).set k
                  (some Mark.O)).all (fun cell => cell.isSome) with _ | _
              · exfalso
                simp [handleMove, handleMovePhase1, handleMoveResume, hguard, hwin, hfull,
                  hwin2, hfull2, hplay] at hdraw
              · have hb : (handleMove size s index (Except.ok k)).board =
                    (s.board.set index (some Mark.X)).set k (some Mark.O) := by
                  simp [handleMove, handleMovePhase1, handleMoveResume, hguard, hwin,
                    hfull, hwin2, hfull2]
                exact ⟨by rw [hb]; exact hfull2,
                  Or.inr ⟨k, rfl, hb, hwin2⟩⟩
            · exfalso
              simp [handleMove, handleMovePhase1, handleMoveResume, hguard, hwin, hfull,
                hwin2] at hdraw
        · have hb : (handleMove size s index oracle).board =
              s.board.set index (some Mark.X) := by
            simp [handleMove, handleMovePhase1, hguard, hwin, hfull]
          exact ⟨by rw [hb]; exact hfull, Or.inl ⟨hb, rfl⟩⟩
      · exfalso
        simp [handleMove, handleMovePhase1, hguard, hwin] at hdraw
    · exfalso
      have hs : handleMove size s index oracle = s := by
        simp [handleMove, handleMovePhase1, hguard]
      rw [hs] at hdraw
      rw [hdraw] at hplay
      cases hplay

theorem handleMove_win_before_draw_witness :
    (handleMove 3
        { initialState 3 with
            board := [some Mark.X, some Mark.X, none,
                      some Mark.O, some Mark.O, none,
                      none, none, none] }
        2 (Except.error ())).gameStatus = GameStatus.won :=
  (handleMove_win_before_draw 3
      { initialState 3 with
          board := [some Mark.X, some Mark.X, none,
                    some Mark.O, some Mark.O, none,
                    none, none, none] }
      2 (Except.error ()) rfl).1 (by decide) [0, 1, 2] (by decide)

/-- Claim C7: the pending-oracle callback is NOT guarded against a reset.
When the game is reset while a request is pending, the arriving response
still runs the continuation of part_004 lines 155-172 against the fresh
component state, writing the captured stale board plus the oracle mark into
it: the fresh game's board does change, contradicting the required
cancellation behavior. -/
theorem staleOracleResponse_mutates_fresh_game :
    (handleMovePhase1 3 (initialState 3) 0).2 =
        some ((initialState 3).board.set 0 (some Mark.X)) ∧
    (handleMoveResume 3 ((initialState 3).board.set 0 (some Mark.X)) (Except.ok 4)
          (resetGame 3 (handleMovePhase1 3 (initialState 3) 0).1)).board ≠
        (resetGame 3 (handleMovePhase1 3 (initialState 3) 0).1).board := by
  decide

/-- Claim C8, counterexample: at size 7 board creation does not fail — it
yields a well-formed board of 49 empty cells — and parseGameParams silently
falls back to size 3 instead of failing. -/
theorem createBoard_no_failure_counterexample :
    (createBoard 7).length = 7 * 7 ∧ (createBoard 7).all (fun c => c.isNone) = true ∧
    parseGameParamsSize 7 = 3 := by
  decide

/-- Claim C8, amended: createBoard yields size * size empty cells for every
size (in particular for 3, 4 and 5); a size outside 3, 4, 5 is never
rejected: the board page still builds a size-squared board, while
parseGameParams replaces the size by the default 3. -/
theorem createBoard_amended (size : Nat) :
    (createBoard size).length = size * size ∧
    (∀ c ∈ createBoard size, c = none) ∧
    ((size = 3 ∨ size = 4 ∨ size = 5) → parseGameParamsSize size = size) ∧
    (¬(size = 3 ∨ size = 4 ∨ size = 5) → parseGameParamsSize size = 3) := by
  refine ⟨by simp [createBoard], fun c hc => List.eq_of_mem_replicate hc,
    fun h => by simp [parseGameParamsSize, h], fun h => by simp [parseGameParamsSize, h]⟩

theorem createBoard_amended_witness :
    parseGameParamsSize 3 = 3 ∧ parseGameParamsSize 7 = 3 :=
  ⟨(createBoard_amended 3).2.2.1 (Or.inl rfl), (createBoard_amended 7).2.2.2 (by decide)⟩

lemma validateAIMove_none (moveText : String) (board : List Cell)
    (h : parseIntJS moveText = none) :
    validateAIMove moveText board = Except.error "AI returned invalid move" := by
  unfold validateAIMove
  rw [h]

lemma validateAIMove_some (moveText : String) (board : List Cell) (m : Int)
    (h : parseIntJS moveText = some m) :
    validateAIMove moveText board =
      if m < 0 ∨ ((board.length : Int) ≤ m) ∨ board.getD m.toNat none ≠ none then
        Except.error "AI returned invalid move"
      else Except.ok m.toNat := by
  unfold validateAIMove
  rw [h]

/-- Claim C5: the move endpoint rejects the oracle reply with the
invalid-move condition (HTTP 400) exactly when the reply does not parse as
an integer, or parses outside the bound size * size, or names an occupied
cell; and on such a failure the client propagates the error without picking
a fallback move. -/
theorem validateAIMove_invalid_iff (moveText : String) (board : List Cell) (size : Nat)
    (hlen : board.length = size * size) :
    (isErr (validateAIMove moveText board) = true ↔
      parseIntJS moveText = none ∨
      ∃ m, parseIntJS moveText = some m ∧
        (m < 0 ∨ (((size * size : Nat) : Int) ≤ m) ∨ board.getD m.toNat none ≠ none)) ∧
    (isErr (validateAIMove moveText board) = true →
      aiMoveHttpStatus (validateAIMove moveText board) = 400) ∧
    (∀ e, getAIMove (Except.error e) = Except.error e) := by
  refine ⟨?_, ?_, fun e => rfl⟩
  · rw [← hlen]
    rcases hp : parseIntJS moveText with _ | m
    · rw [validateAIMove_none moveText board hp]
      simp [isErr]
    · rw [validateAIMove_some moveText board m hp]
      by_cases hc : (m < 0 ∨ ((board.length : Int) ≤ m) ∨ board.getD m.toNat none ≠ none)
      · rw [if_pos hc]
        exact ⟨fun _ => Or.inr ⟨m, rfl, hc⟩, fun _ => rfl⟩
      · rw [if_neg hc]
        constructor
        · intro habs
          simp [isErr] at habs
        · rintro (h | ⟨m', hm', hcond⟩)
          · exact absurd h (by simp)
          · rw [Option.some.injEq] at hm'
            subst hm'
            exact absurd hcond hc
  · intro h
    rcases hr : validateAIMove moveText board with e | v
    · rfl
    · rw [hr] at h
      cases h

theorem validateAIMove_invalid_iff_witness :
    getAIMove (Except.error "AI returned invalid move") =
      Except.error "AI returned invalid move" :=
  (validateAIMove_invalid_iff "abc" (initialState 3).board 3 (by decide)).2.2
    "AI returned invalid move"

/-- Claim C9: a stats report accepted by the endpoint — one that passes the
required-fields check and the GameStats schema validation enforced at
save() — creates exactly one game record, increments gamesPlayed by one and
timePlayed by the reported duration, and increments gamesWon by one exactly
when the result is won (unchanged otherwise). -/
theorem statsPost_aggregates (req : StatsRequest) (current : UserStats) (d : Rat)
    (hfalsy : (falsyField req.userId || falsyField req.result ||
        falsyDuration req.duration || falsyBoardSize req.boardSize ||
        falsyField req.difficulty) = false)
    (hschema : gameStatsSchemaValid req = true)
    (hd : req.duration = some d) :
    (statsPost req current).gameRecordsCreated = 1 ∧
    (statsPost req current).stats.gamesPlayed = current.gamesPlayed + 1 ∧
    (statsPost req current).stats.timePlayed = current.timePlayed + d ∧
    (req.result = some "won" →
      (statsPost req current).stats.gamesWon = current.gamesWon + 1) ∧
    (req.result ≠ some "won" →
      (statsPost req current).stats.gamesWon = current.gamesWon) := by
  have hmain : statsPost req current =
      { status := 200
        message := "Stats updated successfully"
        gameRecordsCreated := 1
        stats :=
          { gamesPlayed := current.gamesPlayed + 1
            timePlayed := current.timePlayed + req.duration.getD 0
            gamesWon := current.gamesWon + (if req.result = some "won" then 1 else 0) } } := by
    simp only [statsPost, hfalsy, Bool.false_eq_true, if_false, hschema, if_true]
  refine ⟨by rw [hmain], by rw [hmain], by rw [hmain, hd]; simp, ?_, ?_⟩
  · intro h
    rw [hmain]
    simp [h]
  · intro h
    rw [hmain]
    simp [h]

theorem statsPost_aggregates_witness :
    (statsPost demoStatsReq ⟨5, 2, 10⟩).gameRecordsCreated = 1 ∧
    (statsPost demoStatsReq ⟨5, 2, 10⟩).stats.gamesPlayed = 5 + 1 :=
  ⟨(statsPost_aggregates demoStatsReq ⟨5, 2, 10⟩ 2 (by decide) (by decide) rfl).1,
   (statsPost_aggregates demoStatsReq ⟨5, 2, 10⟩ 2 (by decide) (by decide) rfl).2.1⟩

/-- Claim C10: a stats report with any required field absent or falsy — in
particular a duration of exactly 0 minutes — yields HTTP 400 with the
missing-fields message, creates no game record, and leaves the user's
aggregates unchanged. -/
theorem statsPost_missing_fields (req : StatsRequest) (current : UserStats)
    (h : falsyField req.userId = true ∨ falsyField req.result = true ∨
         falsyDuration req.duration = true ∨ falsyBoardSize req.boardSize = true ∨
         falsyField req.difficulty = true) :
    statsPost req current =
      { status := 400, message := "Missing required fields", gameRecordsCreated := 0,
        stats := current } := by
  have hguard : (falsyField req.userId || falsyField req.result ||
      falsyDuration req.duration || falsyBoardSize req.boardSize ||
      falsyField req.difficulty) = true := by
    rcases h with h | h | h | h | h <;> simp [h]
  simp [statsPost, hguard]

theorem statsPost_missing_fields_witness :
    statsPost zeroDurationReq ⟨5, 2, 10⟩ =
      { status := 400, message := "Missing required fields", gameRecordsCreated := 0,
        stats := ⟨5, 2, 10⟩ } :=
  statsPost_missing_fields zeroDurationReq ⟨5, 2, 10⟩
    (Or.inr (Or.inr (Or.inl (by decide))))
